import Mathlib

/-!
Shallow embedding of the SageMaker SDK fragment consisting of
`src/sagemaker/debugger/debugger.py` and `src/sagemaker/jumpstart/types.py`,
together with theorems settling the behavioral claims about it.

Python values flowing through this code (JSON-like configuration data) are
modelled by the inductive type `Json`; Python `None` is `Json.null`.
Python dictionaries are modelled as insertion-ordered association lists
(`JDict`), with `dictSet` modelling `d[k] = v` (replace in place if the key
exists, append otherwise) and `dictUpdate` modelling `d.update(e)`.
Functions that can raise are modelled in `Except PyErr`.
-/

namespace SagemakerSpec

/-- Python/JSON values as they appear in this fragment: strings, integers,
booleans, `None`, dicts and lists.  Dicts are insertion-ordered association
lists; structural equality on `Json` corresponds to Python `==` on values
whose dicts are enumerated in the same order. -/
inductive Json where
  | str (s : String)
  | num (n : Int)
  | bool (b : Bool)
  | null
  | obj (fields : List (String × Json))
  | arr (elems : List Json)
  deriving Repr

/-- A Python dict with string keys. -/
abbrev JDict := List (String × Json)

mutual

/-- Structural boolean equality on `Json`. -/
def jsonBeq : Json → Json → Bool
  | .str a, .str b => a == b
  | .num a, .num b => a == b
  | .bool a, .bool b => a == b
  | .null, .null => true
  | .obj d, .obj e => fieldsBeq d e
  | .arr l, .arr m => elemsBeq l m
  | _, _ => false

/-- Structural boolean equality on dict entry lists. -/
def fieldsBeq : List (String × Json) → List (String × Json) → Bool
  | [], [] => true
  | p :: d, q :: e => p.1 == q.1 && jsonBeq p.2 q.2 && fieldsBeq d e
  | _, _ => false

/-- Structural boolean equality on value lists. -/
def elemsBeq : List Json → List Json → Bool
  | [], [] => true
  | x :: l, y :: m => jsonBeq x y && elemsBeq l m
  | _, _ => false

end

mutual

theorem jsonBeq_iff : ∀ (a b : Json), jsonBeq a b = true ↔ a = b
  | .str a, b => by cases b <;> simp [jsonBeq]
  | .num a, b => by cases b <;> simp [jsonBeq]
  | .bool a, b => by cases b <;> simp [jsonBeq]
  | .null, b => by cases b <;> simp [jsonBeq]
  | .obj d, b => by
      cases b <;> simp [jsonBeq]
      exact fieldsBeq_iff d _
  | .arr l, b => by
      cases b <;> simp [jsonBeq]
      exact elemsBeq_iff l _

theorem fieldsBeq_iff : ∀ (d e : List (String × Json)), fieldsBeq d e = true ↔ d = e
  | [], [] => by simp [fieldsBeq]
  | [], _ :: _ => by simp [fieldsBeq]
  | _ :: _, [] => by simp [fieldsBeq]
  | p :: d, q :: e => by
      simp [fieldsBeq, jsonBeq_iff p.2 q.2, fieldsBeq_iff d e, Prod.ext_iff, and_assoc]

theorem elemsBeq_iff : ∀ (l m : List Json), elemsBeq l m = true ↔ l = m
  | [], [] => by simp [elemsBeq]
  | [], _ :: _ => by simp [elemsBeq]
  | _ :: _, [] => by simp [elemsBeq]
  | x :: l, y :: m => by
      simp [elemsBeq, jsonBeq_iff x y, elemsBeq_iff l m]

end

instance : DecidableEq Json := fun a b => decidable_of_iff _ (jsonBeq_iff a b)

/-- Error classes raised by the embedded code.  `valueError` stands for the
`InvalidArgument` class (`ValueError`), `runtimeError` for the
`ConfigurationConflict` class (`RuntimeError`), `keyError` for `KeyError` and
`typeError` for `TypeError`-like failures. -/
inductive PyErr where
  | valueError
  | runtimeError
  | keyError (key : String)
  | typeError
  deriving DecidableEq, Repr

/-- Lookup of a key in a dict (`d[k]` / `d.get(k)`): first occurrence. -/
def dictGet? : JDict → String → Option Json
  | [], _ => none
  | p :: d, k => if p.1 = k then some p.2 else dictGet? d k

/-- The keys of a dict, in insertion order. -/
def dictKeys (d : JDict) : List String := d.map Prod.fst

/-- Python `d[k] = v`: replace the value in place if `k` is already a key,
append the new entry at the end otherwise. -/
def dictSet : JDict → String → Json → JDict
  | [], k, v => [(k, v)]
  | p :: d, k, v => if p.1 = k then (k, v) :: d else p :: dictSet d k v

/-- Python `d.update(e)`: set every entry of `e` in `d`, in order. -/
def dictUpdate (d e : JDict) : JDict :=
  e.foldl (fun acc p => dictSet acc p.1 p.2) d

/-- Left-biased choice on optional lookup results, used to state merge
precedence: the first dict that has the key wins. -/
def jor (a b : Option Json) : Option Json :=
  match a with
  | some v => some v
  | none => b

/-- Python truthiness (`bool(x)`) on the embedded values. -/
def pyTruthy : Json → Bool
  | .null => false
  | .bool b => b
  | .num n => decide (n ≠ 0)
  | .str s => !s.isEmpty
  | .obj d => !d.isEmpty
  | .arr l => !l.isEmpty

@[simp] theorem dictGet?_nil (k : String) : dictGet? [] k = none := rfl

theorem dictGet?_cons (p : String × Json) (d : JDict) (k : String) :
    dictGet? (p :: d) k = if p.1 = k then some p.2 else dictGet? d k := rfl

@[simp] theorem dictKeys_nil : dictKeys [] = [] := rfl

@[simp] theorem dictKeys_cons (p : String × Json) (d : JDict) :
    dictKeys (p :: d) = p.1 :: dictKeys d := rfl

theorem dictGet?_eq_none_iff (d : JDict) (k : String) :
    dictGet? d k = none ↔ k ∉ dictKeys d := by
  induction d with
  | nil => simp
  | cons p d ih =>
    rw [dictGet?_cons, dictKeys_cons]
    by_cases h : p.1 = k
    · subst h
      simp
    · rw [if_neg h]
      constructor
      · intro hk hmem
        rcases List.mem_cons.mp hmem with h1 | h1
        · exact h h1.symm
        · exact (ih.mp hk) h1
      · intro hk
        exact ih.mpr (fun hm => hk (List.mem_cons_of_mem _ hm))

theorem dictGet?_some_mem {d : JDict} {k : String} {v : Json}
    (h : dictGet? d k = some v) : (k, v) ∈ d := by
  induction d with
  | nil => simp at h
  | cons p d ih =>
    rw [dictGet?_cons] at h
    by_cases hp : p.1 = k
    · rw [if_pos hp] at h
      have hpv : p = (k, v) := by
        rcases p with ⟨pk, pv⟩
        simp at hp h ⊢
        exact ⟨hp, h⟩
      rw [← hpv]
      exact List.mem_cons_self _ _
    · rw [if_neg hp] at h
      exact List.mem_cons_of_mem _ (ih h)

theorem mem_dictGet?_of_nodup {d : JDict} {k : String} {v : Json}
    (hn : (dictKeys d).Nodup) (h : (k, v) ∈ d) : dictGet? d k = some v := by
  induction d with
  | nil => simp at h
  | cons p d ih =>
    rw [dictKeys_cons] at hn
    have hn' := List.nodup_cons.mp hn
    rcases List.mem_cons.mp h with h1 | h1
    · rw [← h1, dictGet?_cons, if_pos rfl]
    · have hk : p.1 ≠ k := by
        intro he
        apply hn'.1
        rw [he]
        exact List.mem_map.mpr ⟨(k, v), h1, rfl⟩
      rw [dictGet?_cons, if_neg hk]
      exact ih hn'.2 h1

@[simp] theorem dictGet?_dictSet_self (d : JDict) (k : String) (v : Json) :
    dictGet? (dictSet d k v) k = some v := by
  induction d with
  | nil => simp [dictSet, dictGet?_cons]
  | cons p d ih =>
    by_cases h : p.1 = k
    · rw [dictSet, if_pos h, dictGet?_cons, if_pos rfl]
    · rw [dictSet, if_neg h, dictGet?_cons, if_neg h]
      exact ih

theorem dictGet?_dictSet_ne (d : JDict) {k k' : String} (v : Json) (h : k' ≠ k) :
    dictGet? (dictSet d k v) k' = dictGet? d k' := by
  induction d with
  | nil =>
    rw [dictSet, dictGet?_cons, if_neg (fun he => h he.symm)]
  | cons p d ih =>
    by_cases hp : p.1 = k
    · rw [dictSet, if_pos hp, dictGet?_cons, dictGet?_cons,
        if_neg (fun he => h he.symm), if_neg (by rw [hp]; exact fun he => h he.symm)]
    · rw [dictSet, if_neg hp, dictGet?_cons, dictGet?_cons]
      by_cases hp' : p.1 = k'
      · rw [if_pos hp', if_pos hp']
      · rw [if_neg hp', if_neg hp']
        exact ih

theorem dictSet_eq_append {d : JDict} {k : String} (v : Json)
    (h : k ∉ dictKeys d) : dictSet d k v = d ++ [(k, v)] := by
  induction d with
  | nil => simp [dictSet]
  | cons p d ih =>
    rw [dictKeys_cons] at h
    have h1 : p.1 ≠ k := fun he => h (he ▸ List.mem_cons_self _ _)
    have h2 : k ∉ dictKeys d := fun hm => h (List.mem_cons_of_mem _ hm)
    rw [dictSet, if_neg h1, ih h2]
    rfl

@[simp] theorem dictUpdate_nil (d : JDict) : dictUpdate d [] = d := rfl

theorem dictUpdate_cons (d : JDict) (p : String × Json) (e : JDict) :
    dictUpdate d (p :: e) = dictUpdate (dictSet d p.1 p.2) e := rfl

/-- Lookup after `d.update(e)`: an entry of `e` wins, otherwise fall back to
`d`.  Requires that `e` has no duplicate keys, as every real Python dict. -/
theorem dictGet?_dictUpdate (d : JDict) {e : JDict} (k : String)
    (he : (dictKeys e).Nodup) :
    dictGet? (dictUpdate d e) k = jor (dictGet? e k) (dictGet? d k) := by
  induction e generalizing d with
  | nil => simp [jor]
  | cons p e ih =>
    rw [dictKeys_cons] at he
    have he' := List.nodup_cons.mp he
    rw [dictUpdate_cons, ih _ he'.2, dictGet?_cons]
    by_cases hk : p.1 = k
    · have hnone : dictGet? e k = none := by
        rw [dictGet?_eq_none_iff]
        rw [hk] at he'
        exact he'.1
      rw [if_pos hk, hnone, ← hk]
      simp [jor]
    · rw [if_neg hk, dictGet?_dictSet_ne _ _ (fun he2 => hk he2.symm)]

/-- Updating a dict with entries whose keys are fresh and pairwise distinct
just appends them in order. -/
theorem dictUpdate_eq_append {e : JDict} (d : JDict)
    (hn : (dictKeys e).Nodup) (hf : ∀ k ∈ dictKeys e, k ∉ dictKeys d) :
    dictUpdate d e = d ++ e := by
  induction e generalizing d with
  | nil => simp
  | cons p e ih =>
    rw [dictKeys_cons] at hn hf
    have hn' := List.nodup_cons.mp hn
    rw [dictUpdate_cons,
      dictSet_eq_append _ (hf p.1 (List.mem_cons_self _ _)),
      ih _ hn'.2, List.append_assoc]
    · rfl
    · intro k hk
      rw [dictKeys, List.map_append]
      intro hmem
      rcases List.mem_append.mp hmem with hm | hm
      · exact hf k (List.mem_cons_of_mem _ hk) hm
      · simp at hm
        rw [hm] at hk
        exact hn'.1 hk

/-! Decimal rendering of numbers, modelling Python `str(n)`.  The fuel-based
helper mirrors the usual digit-accumulator loop; `pyStrNat` is proved
injective below, which is what makes the generated `other_trial_<i>` keys
pairwise distinct. -/

/-- The character for a decimal digit. -/
def digitCh (d : Nat) : Char := Char.ofNat (48 + d)

/-- Digit accumulator: prepends the decimal digits of `n` to `acc`. -/
def decCharsAux : Nat → Nat → List Char → List Char
  | 0, _, acc => acc
  | fuel + 1, n, acc =>
    let acc' := digitCh (n % 10) :: acc
    if n < 10 then acc' else decCharsAux fuel (n / 10) acc'

/-- The decimal digit characters of `n`, most significant first. -/
def decList (n : Nat) : List Char := decCharsAux (n + 1) n []

/-- Python `str(n)` for a natural number. -/
def pyStrNat (n : Nat) : String := String.mk (decList n)

theorem decCharsAux_eq (n : Nat) : ∀ fuel acc, n < fuel →
    decCharsAux fuel n acc = decCharsAux (n + 1) n [] ++ acc := by
  induction n using Nat.strong_induction_on with
  | _ n ih =>
    intro fuel acc h
    obtain ⟨f, rfl⟩ : ∃ f, fuel = f + 1 := ⟨fuel - 1, by omega⟩
    by_cases h10 : n < 10
    · simp [decCharsAux, h10]
    · have hdiv : n / 10 < n := Nat.div_lt_self (by omega) (by omega)
      rw [decCharsAux, decCharsAux]
      simp only [h10, if_false]
      rw [ih (n / 10) hdiv f _ (by omega),
        ih (n / 10) hdiv n _ (by omega)]
      simp

theorem decList_eq (n : Nat) : decList n =
    if n < 10 then [digitCh (n % 10)]
    else decList (n / 10) ++ [digitCh (n % 10)] := by
  rw [decList, decCharsAux]
  by_cases h10 : n < 10
  · simp [h10]
  · have hdiv : n / 10 < n := Nat.div_lt_self (by omega) (by omega)
    simp only [h10, if_false]
    exact decCharsAux_eq (n / 10) n _ (by omega)

/-- Reads a digit-character list back as a number; inverse of `decList`. -/
def ofDecChars (l : List Char) : Nat :=
  l.foldl (fun a c => 10 * a + (c.toNat - 48)) 0

theorem digitCh_toNat (d : Nat) (h : d < 10) : (digitCh d).toNat = 48 + d := by
  interval_cases d <;> rfl

theorem ofDecChars_decList (n : Nat) : ofDecChars (decList n) = n := by
  induction n using Nat.strong_induction_on with
  | _ n ih =>
    rw [decList_eq]
    by_cases h10 : n < 10
    · simp only [h10, if_true]
      rw [ofDecChars, List.foldl_cons, List.foldl_nil,
        digitCh_toNat _ (Nat.mod_lt _ (by omega))]
      omega
    · have hdiv : n / 10 < n := Nat.div_lt_self (by omega) (by omega)
      simp only [h10, if_false]
      rw [ofDecChars, List.foldl_append, List.foldl_cons, List.foldl_nil]
      have hih := ih (n / 10) hdiv
      rw [ofDecChars] at hih
      rw [hih, digitCh_toNat _ (Nat.mod_lt _ (by omega))]
      omega

theorem pyStrNat_injective : Function.Injective pyStrNat := by
  intro a b h
  have hdata : decList a = decList b := by
    have := congrArg String.data h
    simpa [pyStrNat] using this
  calc a = ofDecChars (decList a) := (ofDecChars_decList a).symm
    _ = ofDecChars (decList b) := by rw [hdata]
    _ = b := ofDecChars_decList b

/-- Python `str(n)` for an integer. -/
def pyStrInt (n : Int) : String :=
  if n < 0 then "-" ++ pyStrNat n.natAbs else pyStrNat n.toNat

/-- A single-quote character, used by the Python `repr` of strings. -/
def squote : String := String.singleton (Char.ofNat 39)

/-- Python `repr(v)` on the embedded values.  The rendering of strings inside
containers is simplified (no escaping of quotes or control characters); no
claim depends on the exact text produced for containers. -/
def pyRepr : Json → String
  | .str s => squote ++ s ++ squote
  | .num n => pyStrInt n
  | .bool b => cond b "True" "False"
  | .null => "None"
  | .obj d => "\x7b" ++ String.intercalate ", "
      (d.attach.map (fun p => squote ++ p.1.1 ++ squote ++ ": " ++ pyRepr p.1.2)) ++ "\x7d"
  | .arr l => "[" ++ String.intercalate ", "
      (l.attach.map (fun x => pyRepr x.1)) ++ "]"
termination_by v => sizeOf v
decreasing_by
  · have h1 := List.sizeOf_lt_of_mem p.2
    have h2 : sizeOf p.1.2 < sizeOf p.1 := by
      rcases p.1 with ⟨a, b⟩
      simp
    simp only [Json.obj.sizeOf_spec]
    omega
  · have h1 := List.sizeOf_lt_of_mem x.2
    simp only [Json.arr.sizeOf_spec]
    omega

/-- Python `str(v)` on the embedded values: identity on strings, `repr`
otherwise (spelled out per constructor so that scalar cases reduce without
unfolding the recursive `pyRepr`). -/
def pyStr : Json → String
  | .str s => s
  | .num n => pyStrInt n
  | .bool b => cond b "True" "False"
  | .null => "None"
  | .obj d => pyRepr (.obj d)
  | .arr l => pyRepr (.arr l)

/-! Embedding of `src/sagemaker/debugger/debugger.py`. -/

/-- Conversion of an optional string argument (`None` or `str`) to a value. -/
def optJson : Option String → Json
  | none => .null
  | some s => .str s

/-- Truthiness of an optional string argument, e.g. `bool(source)`. -/
def optTruthy (o : Option String) : Bool := pyTruthy (optJson o)

/-- Modelled from the spec: `sagemaker.utils.build_dict` is imported from a
part of the repository that is not in this fragment.  Per the spec's words,
the resulting mapping contains the entry exactly when the value is given;
an absent value is `None` (= `Json.null`). -/
def build_dict (key : String) (value : Json) : JDict :=
  if value = .null then [] else [(key, value)]

/-- `RuleBase._set_rule_parameters` (`debugger.py` lines 85-110): validate the
`source`/`rule_to_invoke` pairing, then merge `source_s3_uri`,
`rule_to_invoke` and `rule_parameters` in increasing precedence. -/
def RuleBase._set_rule_parameters (source rule_to_invoke : Option String)
    (rule_parameters : Option JDict) : Except PyErr JDict :=
  if (optTruthy source).xor (optTruthy rule_to_invoke) then
    .error .valueError
  else
    .ok (dictUpdate (dictUpdate (dictUpdate []
      (build_dict "source_s3_uri" (optJson source)))
      (build_dict "rule_to_invoke" (optJson rule_to_invoke)))
      (rule_parameters.getD []))

/-- Python `d1 == d2` on dicts: same number of entries and every entry of
`d1` is present in `d2` (values compared structurally). -/
def pyDictEq (d e : JDict) : Bool :=
  d.length == e.length && d.all (fun p => dictGet? e p.1 == some p.2)

/-- Python `==` on values as used by `CollectionConfig.__eq__`: insensitive
to the insertion order of top-level dict entries. -/
def pyValEq (a b : Json) : Bool :=
  match a, b with
  | .obj d, .obj e => pyDictEq d e
  | _, _ => a == b

/-- `CollectionConfig` (`debugger.py`): `name` and `parameters` stored
verbatim; the `parameters=None` default is `Json.null`. -/
structure CollectionConfig where
  name : Json
  parameters : Json
  deriving DecidableEq, Repr

/-- `CollectionConfig.__eq__` between two configs (comparing against a value
of another type raises `TypeError` in the source and is excluded by typing
here). -/
def CollectionConfig.eqPy (c other : CollectionConfig) : Bool :=
  pyValEq c.name other.name && pyValEq c.parameters other.parameters

/-- `CollectionConfig.__ne__`. -/
def CollectionConfig.nePy (c other : CollectionConfig) : Bool :=
  !pyValEq c.name other.name || !pyValEq c.parameters other.parameters

/-- Order on dict entries used by `sorted` on dict items: by key.  (Python
compares the tuples lexicographically, but the keys of a dict are pairwise
distinct, so the values are never compared.) -/
def keyLe (p q : String × Json) : Bool := p.1 ≤ q.1

/-- `CollectionConfig.__hash__` hashes
`(self.name, tuple(sorted((self.parameters or \x7b\x7d).items())))`; we model
the hash by the hashed tuple itself.  Calling `items` on a truthy non-dict
value raises `TypeError`. -/
def CollectionConfig.hashInput (c : CollectionConfig) :
    Except PyErr (Json × JDict) :=
  match (if pyTruthy c.parameters then c.parameters else .obj []) with
  | .obj d => .ok (c.name, d.mergeSort keyLe)
  | _ => .error .typeError

/-- `CollectionConfig._to_request_dict`; the second component is the
receiver after the call (this method does not mutate it). -/
def CollectionConfig._to_request_dict (c : CollectionConfig) :
    JDict × CollectionConfig :=
  let req : JDict := [("CollectionName", c.name)]
  (if c.parameters ≠ .null then dictSet req "CollectionParameters" c.parameters
   else req, c)

/-- `ProfilerRule`: the seven `RuleBase` attributes.  All attributes are
stored verbatim (`None` = `Json.null`); `rule_parameters` is a dict in every
construction path of the source. -/
structure ProfilerRule where
  name : Json
  image_uri : Json
  instance_type : Json
  container_local_output_path : Json
  s3_output_path : Json
  volume_size_in_gb : Json
  rule_parameters : JDict
  deriving DecidableEq, Repr

/-- `Rule`: the `RuleBase` attributes plus `collection_configs`. -/
structure Rule where
  name : Json
  image_uri : Json
  instance_type : Json
  container_local_output_path : Json
  s3_output_path : Json
  volume_size_in_gb : Json
  rule_parameters : JDict
  collection_configs : List CollectionConfig
  deriving DecidableEq, Repr

/-- The guard of `Rule.sagemaker`:
`rule_parameters is not None and rule_parameters.get("rule_to_invoke") is not None`. -/
def ruleToInvokeConflict (rule_parameters : Option JDict) : Bool :=
  match rule_parameters with
  | none => false
  | some m =>
    match dictGet? m "rule_to_invoke" with
    | some v => v != .null
    | none => false

/-- One iteration of the collection loop in `Rule.sagemaker`: scan the items
of one `CollectionConfigurations` entry for `CollectionName` and
`CollectionParameters` (last occurrence wins, as in the source loop; the
defaults are `None` and the empty dict). -/
def collectionFromItems (cfg : JDict) : CollectionConfig :=
  let np := cfg.foldl
    (fun np kv =>
      (if kv.1 = "CollectionName" then kv.2 else np.1,
       if kv.1 = "CollectionParameters" then kv.2 else np.2))
    (Json.null, Json.obj [])
  { name := np.1, parameters := np.2 }

/-- The body of the `CollectionConfigurations` loop of `Rule.sagemaker`:
one `CollectionConfig` per entry; reading the items of a non-dict entry
fails in Python (modelled as `typeError`). -/
def collectionsFromList : List Json → Except PyErr (List CollectionConfig)
  | [] => .ok []
  | cfg :: rest =>
    match cfg with
    | .obj items => do
      let tail ← collectionsFromList rest
      pure (collectionFromItems items :: tail)
    | _ => .error PyErr.typeError

/-- The `CollectionConfigurations` loop of `Rule.sagemaker`.  Iterating an
empty dict or empty string runs zero iterations; iterating any other
non-list value fails at the first element (its items cannot be read) or is
not iterable at all — both modelled as `typeError`. -/
def baseConfigCollections (base_config : JDict) :
    Except PyErr (List CollectionConfig) :=
  match dictGet? base_config "CollectionConfigurations" with
  | none => .ok []
  | some (.arr configs) => collectionsFromList configs
  | some (.obj l) => if l.isEmpty then .ok [] else .error PyErr.typeError
  | some (.str s) => if s.isEmpty then .ok [] else .error PyErr.typeError
  | some _ => .error PyErr.typeError

/-- The key `other_trial_<i>` for the i-th "other trial" input path. -/
def otherTrialKey (i : Nat) : String := "other_trial_" ++ pyStrNat i

/-- The `other_trials_s3_input_paths` loop of `Rule.sagemaker`: successive
`merged_rule_params["other_trial_<i>"] = path` on an initially empty dict. -/
def otherTrialsDict : Option (List String) → JDict
  | none => []
  | some paths =>
      paths.enum.foldl
        (fun acc ip => dictSet acc (otherTrialKey ip.1) (.str ip.2)) []

/-- `Rule.sagemaker` (`debugger.py` lines 154-276).  `base_config` is the raw
registry dict.  The `rule_to_invoke` guard raises `RuntimeError`; a missing
`DebugRuleConfiguration` key raises `KeyError`; subscripting or updating
with a non-dict value raises `TypeError`. -/
def Rule.sagemaker (base_config : JDict) (name : Option String)
    (container_local_output_path s3_output_path : Option String)
    (other_trials_s3_input_paths : Option (List String))
    (rule_parameters : Option JDict)
    (collections_to_save : Option (List CollectionConfig)) :
    Except PyErr Rule := do
  if ruleToInvokeConflict rule_parameters then
    throw PyErr.runtimeError
  let merged0 := otherTrialsDict other_trials_s3_input_paths
  let drc ← match dictGet? base_config "DebugRuleConfiguration" with
    | none => throw (PyErr.keyError "DebugRuleConfiguration")
    | some (.obj drc) => pure drc
    | some _ => throw PyErr.typeError
  let default_rule_params ← match dictGet? drc "RuleParameters" with
    | none => pure ([] : JDict)
    | some (.obj d) => pure d
    | some _ => throw PyErr.typeError
  let merged := dictUpdate (dictUpdate merged0 default_rule_params)
    (rule_parameters.getD [])
  let base_config_collections ← baseConfigCollections base_config
  pure {
    name := match name with
      | some n =>
          if !n.isEmpty then .str n
          else (dictGet? drc "RuleConfigurationName").getD .null
      | none => (dictGet? drc "RuleConfigurationName").getD .null
    image_uri := .str "DEFAULT_RULE_EVALUATOR_IMAGE"
    instance_type := .null
    container_local_output_path := optJson container_local_output_path
    s3_output_path := optJson s3_output_path
    volume_size_in_gb := .null
    rule_parameters := merged
    collection_configs := match collections_to_save with
      | some l => if !l.isEmpty then l else base_config_collections
      | none => base_config_collections }

/-- `Rule.to_debugger_rule_config_dict`; the second component is the
receiver after the call (this serializer does not mutate it). -/
def Rule.to_debugger_rule_config_dict (r : Rule) : JDict × Rule :=
  let req : JDict :=
    [("RuleConfigurationName", r.name), ("RuleEvaluatorImage", r.image_uri)]
  let req := dictUpdate req (build_dict "InstanceType" r.instance_type)
  let req := dictUpdate req (build_dict "VolumeSizeInGB" r.volume_size_in_gb)
  let req := dictUpdate req (build_dict "LocalPath" r.container_local_output_path)
  let req := dictUpdate req (build_dict "S3OutputPath" r.s3_output_path)
  let req := dictUpdate req (build_dict "RuleParameters" (.obj r.rule_parameters))
  (req, r)

/-- `ProfilerRule.to_profiler_rule_config_dict`.  The source stores
`self.rule_parameters` itself (not a copy) under `RuleParameters` and then
stringifies the values of that shared dict in place, so the receiver's
`rule_parameters` is mutated whenever it is non-empty; the second component
is the receiver after the call. -/
def ProfilerRule.to_profiler_rule_config_dict (p : ProfilerRule) :
    JDict × ProfilerRule :=
  let req : JDict :=
    [("RuleConfigurationName", p.name), ("RuleEvaluatorImage", p.image_uri)]
  let req := dictUpdate req (build_dict "InstanceType" p.instance_type)
  let req := dictUpdate req (build_dict "VolumeSizeInGB" p.volume_size_in_gb)
  let req := dictUpdate req (build_dict "LocalPath" p.container_local_output_path)
  let req := dictUpdate req (build_dict "S3OutputPath" p.s3_output_path)
  if pyTruthy (.obj p.rule_parameters) then
    let stringified := p.rule_parameters.map (fun q => (q.1, Json.str (pyStr q.2)))
    (dictSet req "RuleParameters" (.obj stringified),
     { p with rule_parameters := stringified })
  else (req, p)

/-- `DebuggerHookConfig`: four attributes stored verbatim; the first three
default to `None` (= `Json.null`), `collection_configs` holds either `None`
or a list of `CollectionConfig` objects. -/
structure DebuggerHookConfig where
  s3_output_path : Json
  container_local_output_path : Json
  hook_parameters : Json
  collection_configs : Option (List CollectionConfig)
  deriving DecidableEq, Repr

/-- `DebuggerHookConfig._to_request_dict`; the second component is the
receiver after the call. -/
def DebuggerHookConfig._to_request_dict (hc : DebuggerHookConfig) :
    JDict × DebuggerHookConfig :=
  let req : JDict := [("S3OutputPath", hc.s3_output_path)]
  let req := if hc.container_local_output_path ≠ .null then
    dictSet req "LocalPath" hc.container_local_output_path else req
  let req := if hc.hook_parameters ≠ .null then
    dictSet req "HookParameters" hc.hook_parameters else req
  let req := match hc.collection_configs with
    | none => req
    | some l => dictSet req "CollectionConfigurations"
        (.arr (l.map (fun c => .obj (c._to_request_dict).fst)))
  (req, hc)

/-- `TensorBoardOutputConfig`: two attributes stored verbatim. -/
structure TensorBoardOutputConfig where
  s3_output_path : Json
  container_local_output_path : Json
  deriving DecidableEq, Repr

/-- `TensorBoardOutputConfig._to_request_dict`; the second component is the
receiver after the call. -/
def TensorBoardOutputConfig._to_request_dict (t : TensorBoardOutputConfig) :
    JDict × TensorBoardOutputConfig :=
  let req : JDict := [("S3OutputPath", t.s3_output_path)]
  (if t.container_local_output_path ≠ .null then
    dictSet req "LocalPath" t.container_local_output_path
   else req, t)

/-! Embedding of `src/sagemaker/jumpstart/types.py`. -/

/-- `json_obj[k]`: raises `KeyError` when the key is missing. -/
def jsonGetItem (d : JDict) (k : String) : Except PyErr Json :=
  match dictGet? d k with
  | some v => .ok v
  | none => .error (.keyError k)

/-- `JumpStartS3FileType`. -/
inductive JumpStartS3FileType where
  | MANIFEST
  | SPECS
  deriving DecidableEq, Repr

/-- `JumpStartLaunchedRegionInfo`. -/
structure JumpStartLaunchedRegionInfo where
  content_bucket : Json
  region_name : Json
  deriving DecidableEq, Repr

/-- `JumpStartModelHeader`: slots `model_id`, `version`, `min_version`,
`spec_key`, set by `from_json`. -/
structure JumpStartModelHeader where
  model_id : Json
  version : Json
  min_version : Json
  spec_key : Json
  deriving DecidableEq, Repr

/-- `JumpStartModelHeader.from_json` (also the constructor): requires the
four keys; subscripting a non-dict fails. -/
def JumpStartModelHeader.from_json (j : Json) :
    Except PyErr JumpStartModelHeader :=
  match j with
  | .obj d => do
    let model_id ← jsonGetItem d "model_id"
    let version ← jsonGetItem d "version"
    let min_version ← jsonGetItem d "min_version"
    let spec_key ← jsonGetItem d "spec_key"
    pure ⟨model_id, version, min_version, spec_key⟩
  | _ => .error .typeError

/-- `JumpStartModelHeader.to_json`: one entry per slot, attribute values
verbatim. -/
def JumpStartModelHeader.to_json (h : JumpStartModelHeader) : JDict :=
  [("model_id", h.model_id), ("version", h.version),
   ("min_version", h.min_version), ("spec_key", h.spec_key)]

/-- `JumpStartECRSpecs`: slots `framework`, `framework_version`,
`py_version` (declared as a set in the source; the enumeration order used by
`to_json` is arbitrary there, and fixed here — dict equality does not depend
on it). -/
structure JumpStartECRSpecs where
  framework : Json
  framework_version : Json
  py_version : Json
  deriving DecidableEq, Repr

/-- `JumpStartECRSpecs.from_json` (also the constructor). -/
def JumpStartECRSpecs.from_json (j : Json) : Except PyErr JumpStartECRSpecs :=
  match j with
  | .obj d => do
    let framework ← jsonGetItem d "framework"
    let framework_version ← jsonGetItem d "framework_version"
    let py_version ← jsonGetItem d "py_version"
    pure ⟨framework, framework_version, py_version⟩
  | _ => .error .typeError

/-- `JumpStartECRSpecs.to_json`. -/
def JumpStartECRSpecs.to_json (e : JumpStartECRSpecs) : JDict :=
  [("framework", e.framework), ("framework_version", e.framework_version),
   ("py_version", e.py_version)]

/-- `JumpStartModelSpecs`: twelve slots.  The two `*_supported` attributes
are stored through `bool(...)`; `training_ecr_specs` holds `None` or a
`JumpStartECRSpecs` object; the remaining training attributes hold raw
values, with `None` = `Json.null`. -/
structure JumpStartModelSpecs where
  model_id : Json
  version : Json
  min_sdk_version : Json
  incremental_training_supported : Bool
  hosting_ecr_specs : JumpStartECRSpecs
  hosting_artifact_key : Json
  hosting_script_key : Json
  training_supported : Bool
  training_ecr_specs : Option JumpStartECRSpecs
  training_artifact_key : Json
  training_script_key : Json
  hyperparameters : Json
  deriving DecidableEq, Repr

/-- `JumpStartModelSpecs.from_json` (also the constructor, `types.py` lines
190-214): when `training_supported` is falsy, the four training attributes
are all set to `None`. -/
def JumpStartModelSpecs.from_json (j : Json) :
    Except PyErr JumpStartModelSpecs :=
  match j with
  | .obj d => do
    let model_id ← jsonGetItem d "model_id"
    let version ← jsonGetItem d "version"
    let min_sdk_version ← jsonGetItem d "min_sdk_version"
    let its ← jsonGetItem d "incremental_training_supported"
    let hosting_raw ← jsonGetItem d "hosting_ecr_specs"
    let hosting_ecr_specs ← JumpStartECRSpecs.from_json hosting_raw
    let hosting_artifact_key ← jsonGetItem d "hosting_artifact_key"
    let hosting_script_key ← jsonGetItem d "hosting_script_key"
    let ts ← jsonGetItem d "training_supported"
    if pyTruthy ts then do
      let training_raw ← jsonGetItem d "training_ecr_specs"
      let training_ecr_specs ← JumpStartECRSpecs.from_json training_raw
      let training_artifact_key ← jsonGetItem d "training_artifact_key"
      let training_script_key ← jsonGetItem d "training_script_key"
      pure ⟨model_id, version, min_sdk_version, pyTruthy its,
        hosting_ecr_specs, hosting_artifact_key, hosting_script_key,
        true, some training_ecr_specs, training_artifact_key,
        training_script_key, (dictGet? d "hyperparameters").getD .null⟩
    else
      pure ⟨model_id, version, min_sdk_version, pyTruthy its,
        hosting_ecr_specs, hosting_artifact_key, hosting_script_key,
        false, none, .null, .null, .null⟩
  | _ => .error .typeError

/-- `JumpStartModelSpecs.to_json` (`types.py` lines 216-225): one entry per
slot; `JumpStartECRSpecs` attribute values are recursively serialized, all
other values are emitted verbatim. -/
def JumpStartModelSpecs.to_json (s : JumpStartModelSpecs) : JDict :=
  [("model_id", s.model_id), ("version", s.version),
   ("min_sdk_version", s.min_sdk_version),
   ("incremental_training_supported", .bool s.incremental_training_supported),
   ("hosting_ecr_specs", .obj s.hosting_ecr_specs.to_json),
   ("hosting_artifact_key", s.hosting_artifact_key),
   ("hosting_script_key", s.hosting_script_key),
   ("training_supported", .bool s.training_supported),
   ("training_ecr_specs",
     match s.training_ecr_specs with
     | some e => .obj e.to_json
     | none => .null),
   ("training_artifact_key", s.training_artifact_key),
   ("training_script_key", s.training_script_key),
   ("hyperparameters", s.hyperparameters)]

/-- `JumpStartVersionedModelId`. -/
structure JumpStartVersionedModelId where
  model_id : Json
  version : Json
  deriving DecidableEq, Repr

/-- `JumpStartCachedS3ContentKey`. -/
structure JumpStartCachedS3ContentKey where
  file_type : JumpStartS3FileType
  s3_key : Json
  deriving DecidableEq, Repr

/-- The `formatted_content` union of `JumpStartCachedS3ContentValue`: either
a dict from versioned model ids to headers, or a list of model specs. -/
inductive FormattedContent where
  | headerMap (m : List (JumpStartVersionedModelId × JumpStartModelHeader))
  | specsList (l : List JumpStartModelSpecs)
  deriving DecidableEq, Repr

/-- `JumpStartCachedS3ContentValue`. -/
structure JumpStartCachedS3ContentValue where
  formatted_content : FormattedContent
  md5_hash : Json
  deriving DecidableEq, Repr

/-! Generic equality of `JumpStartDataHolderType` (`types.py` lines 30-46).
The universe of objects is the closed set of classes defined in the file
(including the instantiable base class itself, whose `__slots__` is the
empty list); `isinstance(other, type(self))` holds when the tags match or
`self` is the base class. -/

/-- The classes of `types.py` that share the generic equality. -/
inductive Tag where
  | base
  | launchedRegionInfo
  | modelHeader
  | ecrSpecs
  | modelSpecs
  | versionedModelId
  | cachedS3ContentKey
  | cachedS3ContentValue
  deriving DecidableEq, Repr

/-- A `__slots__` value: a list or (only for `JumpStartECRSpecs`) a set of
attribute names. -/
inductive Slots where
  | lst (names : List String)
  | set (names : List String)
  deriving DecidableEq, Repr

/-- Python `==` between two `__slots__` values: lists compare by sequence,
sets by extension, and a list never equals a set. -/
def slotsBeq : Slots → Slots → Bool
  | .lst a, .lst b => a == b
  | .set a, .set b => a.all (b.contains ·) && b.all (a.contains ·)
  | _, _ => false

/-- The declared `__slots__` of each class. -/
def slotsOf : Tag → Slots
  | .base => .lst []
  | .launchedRegionInfo => .lst ["content_bucket", "region_name"]
  | .modelHeader => .lst ["model_id", "version", "min_version", "spec_key"]
  | .ecrSpecs => .set ["framework", "framework_version", "py_version"]
  | .modelSpecs => .lst ["model_id", "version", "min_sdk_version",
      "incremental_training_supported", "hosting_ecr_specs",
      "hosting_artifact_key", "hosting_script_key", "training_supported",
      "training_ecr_specs", "training_artifact_key", "training_script_key",
      "hyperparameters"]
  | .versionedModelId => .lst ["model_id", "version"]
  | .cachedS3ContentKey => .lst ["file_type", "s3_key"]
  | .cachedS3ContentValue => .lst ["formatted_content", "md5_hash"]

/-- The names to iterate over in `for attribute in self.__slots__`. -/
def slotNames : Slots → List String
  | .lst l => l
  | .set l => l

/-- An instance of any of the classes sharing the generic equality. -/
inductive Holder where
  | base
  | regionInfo (x : JumpStartLaunchedRegionInfo)
  | header (x : JumpStartModelHeader)
  | ecr (x : JumpStartECRSpecs)
  | specs (x : JumpStartModelSpecs)
  | versionedId (x : JumpStartVersionedModelId)
  | cachedKey (x : JumpStartCachedS3ContentKey)
  | cachedValue (x : JumpStartCachedS3ContentValue)
  deriving DecidableEq, Repr

/-- `type(x)`. -/
def tagOf : Holder → Tag
  | .base => .base
  | .regionInfo _ => .launchedRegionInfo
  | .header _ => .modelHeader
  | .ecr _ => .ecrSpecs
  | .specs _ => .modelSpecs
  | .versionedId _ => .versionedModelId
  | .cachedKey _ => .cachedS3ContentKey
  | .cachedValue _ => .cachedS3ContentValue

/-- `isinstance(other, type(self))`: in this hierarchy every class derives
directly from the base class, so the check holds exactly when the tags agree
or `self` is the base class. -/
def isSubclass (other self : Tag) : Bool := other == self || self == .base

/-- The values an attribute access can produce on these objects. -/
inductive AttVal where
  | js (v : Json)
  | b (v : Bool)
  | ecrSpecs (e : JumpStartECRSpecs)
  | fileType (t : JumpStartS3FileType)
  | content (c : FormattedContent)
  deriving DecidableEq, Repr

/-- Python `==` between two attribute values.  In this universe the
attribute comparison is only reached when both sides belong to the same
class, so both sides have the same shape; nested `JumpStartECRSpecs` values
dispatch to the generic equality again, which on two values of that same
type is exactly structural equality of the three slots. -/
def attValEq : AttVal → AttVal → Bool
  | .js a, .js b => a == b
  | .b x, .b y => x == y
  | .ecrSpecs a, .ecrSpecs b => a == b
  | .fileType a, .fileType b => a == b
  | .content a, .content b => a == b
  | _, _ => false

/-- `getattr(x, att)` for the attributes declared in each `__slots__`. -/
def getattr? : Holder → String → Option AttVal
  | .base, _ => none
  | .regionInfo x, a =>
    if a = "content_bucket" then some (.js x.content_bucket)
    else if a = "region_name" then some (.js x.region_name)
    else none
  | .header x, a =>
    if a = "model_id" then some (.js x.model_id)
    else if a = "version" then some (.js x.version)
    else if a = "min_version" then some (.js x.min_version)
    else if a = "spec_key" then some (.js x.spec_key)
    else none
  | .ecr x, a =>
    if a = "framework" then some (.js x.framework)
    else if a = "framework_version" then some (.js x.framework_version)
    else if a = "py_version" then some (.js x.py_version)
    else none
  | .specs x, a =>
    if a = "model_id" then some (.js x.model_id)
    else if a = "version" then some (.js x.version)
    else if a = "min_sdk_version" then some (.js x.min_sdk_version)
    else if a = "incremental_training_supported" then
      some (.b x.incremental_training_supported)
    else if a = "hosting_ecr_specs" then some (.ecrSpecs x.hosting_ecr_specs)
    else if a = "hosting_artifact_key" then some (.js x.hosting_artifact_key)
    else if a = "hosting_script_key" then some (.js x.hosting_script_key)
    else if a = "training_supported" then some (.b x.training_supported)
    else if a = "training_ecr_specs" then
      some (match x.training_ecr_specs with
        | some e => .ecrSpecs e
        | none => .js .null)
    else if a = "training_artifact_key" then some (.js x.training_artifact_key)
    else if a = "training_script_key" then some (.js x.training_script_key)
    else if a = "hyperparameters" then some (.js x.hyperparameters)
    else none
  | .versionedId x, a =>
    if a = "model_id" then some (.js x.model_id)
    else if a = "version" then some (.js x.version)
    else none
  | .cachedKey x, a =>
    if a = "file_type" then some (.fileType x.file_type)
    else if a = "s3_key" then some (.js x.s3_key)
    else none
  | .cachedValue x, a =>
    if a = "formatted_content" then some (.content x.formatted_content)
    else if a = "md5_hash" then some (.js x.md5_hash)
    else none

/-- `JumpStartDataHolderType.__eq__` (`types.py` lines 30-46): `other` must
be an instance of `type(self)`, have a `__slots__` (always true in this
universe), have equal `__slots__`, and agree on every declared attribute. -/
def holderEq (self other : Holder) : Bool :=
  isSubclass (tagOf other) (tagOf self)
  && slotsBeq (slotsOf (tagOf self)) (slotsOf (tagOf other))
  && (slotNames (slotsOf (tagOf self))).all (fun att =>
      match getattr? self att, getattr? other att with
      | some a, some b => attValEq a b
      | _, _ => false)

theorem holderEq_regionInfo (a b : JumpStartLaunchedRegionInfo) :
    holderEq (.regionInfo a) (.regionInfo b) = true ↔ a = b := by
  cases a; cases b
  simp [holderEq, tagOf, slotsOf, isSubclass, slotsBeq, slotNames, getattr?, attValEq]

theorem holderEq_header (a b : JumpStartModelHeader) :
    holderEq (.header a) (.header b) = true ↔ a = b := by
  cases a; cases b
  simp [holderEq, tagOf, slotsOf, isSubclass, slotsBeq, slotNames, getattr?, attValEq]

theorem holderEq_ecr (a b : JumpStartECRSpecs) :
    holderEq (.ecr a) (.ecr b) = true ↔ a = b := by
  cases a; cases b
  simp [holderEq, tagOf, slotsOf, isSubclass, slotsBeq, slotNames, getattr?, attValEq]

theorem holderEq_specs (a b : JumpStartModelSpecs) :
    holderEq (.specs a) (.specs b) = true ↔ a = b := by
  cases a with
  | mk m1 v1 s1 i1 h1 k1 c1 t1 e1 r1 y1 p1 =>
  cases b with
  | mk m2 v2 s2 i2 h2 k2 c2 t2 e2 r2 y2 p2 =>
  cases e1 <;> cases e2 <;>
    simp [holderEq, tagOf, slotsOf, isSubclass, slotsBeq, slotNames, getattr?, attValEq]

theorem holderEq_versionedId (a b : JumpStartVersionedModelId) :
    holderEq (.versionedId a) (.versionedId b) = true ↔ a = b := by
  cases a; cases b
  simp [holderEq, tagOf, slotsOf, isSubclass, slotsBeq, slotNames, getattr?, attValEq]

theorem holderEq_cachedKey (a b : JumpStartCachedS3ContentKey) :
    holderEq (.cachedKey a) (.cachedKey b) = true ↔ a = b := by
  cases a; cases b
  simp [holderEq, tagOf, slotsOf, isSubclass, slotsBeq, slotNames, getattr?, attValEq]

theorem holderEq_cachedValue (a b : JumpStartCachedS3ContentValue) :
    holderEq (.cachedValue a) (.cachedValue b) = true ↔ a = b := by
  cases a; cases b
  simp [holderEq, tagOf, slotsOf, isSubclass, slotsBeq, slotNames, getattr?, attValEq]

/-- C8: for the JumpStart data holders, the generic `__eq__` is exactly
type-exact structural equality — two objects compare equal if and only if
they are instances of the same concrete class with all declared attributes
equal (in the embedding: the same `Holder` value); in particular instances
of different classes, including a subclass instance compared with a base
class instance in either order, are never equal. -/
theorem claim_C8_data_holder_equality (x y : Holder) :
    holderEq x y = true ↔ x = y := by
  cases x <;> cases y <;>
    first
    | (rw [holderEq_regionInfo]; simp)
    | (rw [holderEq_header]; simp)
    | (rw [holderEq_ecr]; simp)
    | (rw [holderEq_specs]; simp)
    | (rw [holderEq_versionedId]; simp)
    | (rw [holderEq_cachedKey]; simp)
    | (rw [holderEq_cachedValue]; simp)
    | decide
    | simp [holderEq, tagOf, slotsOf, isSubclass, slotsBeq]

/-! Order-independence of `CollectionConfig` equality and hashing. -/

theorem nodup_of_dictKeys_nodup {d : JDict} (h : (dictKeys d).Nodup) :
    d.Nodup :=
  List.Nodup.of_map Prod.fst (by simpa [dictKeys] using h)

theorem pyDictEq_perm {d e : JDict} (hd : (dictKeys d).Nodup)
    (h : pyDictEq d e = true) : d.Perm e := by
  rw [pyDictEq, Bool.and_eq_true] at h
  have hlen : d.length = e.length := by simpa using h.1
  have hsub : d ⊆ e := by
    intro p hp
    have hall := List.all_eq_true.mp h.2 p hp
    have hget : dictGet? e p.1 = some p.2 := by simpa using hall
    have := dictGet?_some_mem hget
    simpa using this
  exact (List.subperm_of_subset (nodup_of_dictKeys_nodup hd) hsub).perm_of_length_le
    (le_of_eq hlen.symm)

/-- Strict key order on dict entries. -/
def keyLT (p q : String × Json) : Prop := p.1 < q.1

instance : IsAntisymm (String × Json) keyLT :=
  ⟨fun _ _ h1 h2 => absurd h2 (lt_asymm h1)⟩

theorem keyLe_eq_true_iff (p q : String × Json) :
    keyLe p q = true ↔ p.1 ≤ q.1 := by
  simp [keyLe]

theorem pairwise_keyLT_mergeSort {d : JDict} (hd : (dictKeys d).Nodup) :
    (d.mergeSort keyLe).Pairwise keyLT := by
  have hle : (d.mergeSort keyLe).Pairwise (fun p q => keyLe p q = true) :=
    List.sorted_mergeSort
      (fun a b c h1 h2 => by
        rw [keyLe_eq_true_iff] at h1 h2 ⊢
        exact le_trans h1 h2)
      (fun a b => by
        rcases le_total a.1 b.1 with h | h
        · simp [keyLe_eq_true_iff, h]
        · simp [keyLe_eq_true_iff, h])
      d
  have hnd : (dictKeys (d.mergeSort keyLe)).Nodup := by
    have hperm : dictKeys (d.mergeSort keyLe) = List.map Prod.fst (d.mergeSort keyLe) := by
      simp [dictKeys]
    rw [hperm]
    exact (((List.mergeSort_perm d keyLe).map Prod.fst).nodup_iff).mpr
      (by simpa [dictKeys] using hd)
  have hne : (d.mergeSort keyLe).Pairwise (fun p q => p.1 ≠ q.1) := by
    have : (List.map Prod.fst (d.mergeSort keyLe)).Pairwise (· ≠ ·) := by
      simpa [dictKeys, List.Nodup] using hnd
    exact (List.pairwise_map).mp this
  exact (hle.and hne).imp
    (fun h => lt_of_le_of_ne ((keyLe_eq_true_iff _ _).mp h.1) h.2)

theorem sortByKey_congr {d e : JDict} (hd : (dictKeys d).Nodup)
    (he : (dictKeys e).Nodup) (h : pyDictEq d e = true) :
    d.mergeSort keyLe = e.mergeSort keyLe := by
  have hperm : (d.mergeSort keyLe).Perm (e.mergeSort keyLe) :=
    ((List.mergeSort_perm d keyLe).trans (pyDictEq_perm hd h)).trans
      (List.mergeSort_perm e keyLe).symm
  exact List.eq_of_perm_of_sorted hperm
    (pairwise_keyLT_mergeSort hd) (pairwise_keyLT_mergeSort he)

theorem hashInput_obj (c : CollectionConfig) {d : JDict}
    (h : c.parameters = .obj d) :
    c.hashInput = .ok (c.name, d.mergeSort keyLe) := by
  rw [CollectionConfig.hashInput, h]
  cases d with
  | nil => simp [pyTruthy]
  | cons p d => simp [pyTruthy]

/-- C7: two `CollectionConfig`s with the same (string) name and parameter
dicts that are equal as mappings — possibly enumerated in different
insertion orders — are equal under `__eq__`, and the tuples hashed by
`__hash__` (name together with the parameter items sorted by key) coincide,
so the hash is insertion-order independent. -/
theorem claim_C7_collection_config_eq_hash (c1 c2 : CollectionConfig)
    (s : String) (d e : JDict)
    (hn1 : c1.name = .str s) (hn2 : c2.name = .str s)
    (hp1 : c1.parameters = .obj d) (hp2 : c2.parameters = .obj e)
    (hd : (dictKeys d).Nodup) (he : (dictKeys e).Nodup)
    (heq : pyDictEq d e = true) :
    CollectionConfig.eqPy c1 c2 = true ∧ c1.hashInput = c2.hashInput := by
  constructor
  · rw [CollectionConfig.eqPy, hn1, hn2, hp1, hp2]
    simp [pyValEq, heq]
  · rw [hashInput_obj c1 hp1, hashInput_obj c2 hp2, hn1, hn2,
      sortByKey_congr hd he heq]

/-- Witness for C7: two concrete configs whose parameter dicts hold the same
entries in opposite insertion orders. -/
theorem claim_C7_witness :
    CollectionConfig.eqPy ⟨.str "c", .obj [("a", .str "1"), ("b", .str "2")]⟩
        ⟨.str "c", .obj [("b", .str "2"), ("a", .str "1")]⟩ = true
    ∧ CollectionConfig.hashInput
        ⟨.str "c", .obj [("a", .str "1"), ("b", .str "2")]⟩
      = CollectionConfig.hashInput
        ⟨.str "c", .obj [("b", .str "2"), ("a", .str "1")]⟩ :=
  claim_C7_collection_config_eq_hash _ _ "c" _ _ rfl rfl rfl rfl
    (by decide) (by decide) (by decide)

/-! Properties of the `other_trial_<i>` key generation and parameter merge
of `Rule.sagemaker`. -/

theorem string_append_data (a b : String) : (a ++ b).data = a.data ++ b.data :=
  rfl

theorem string_mk_data (l : List Char) : (String.mk l).data = l := rfl

theorem otherTrialKey_injective : Function.Injective otherTrialKey := by
  intro i j h
  have hdata := congrArg String.data h
  rw [otherTrialKey, otherTrialKey, pyStrNat, pyStrNat,
    string_append_data, string_append_data, string_mk_data, string_mk_data]
    at hdata
  have h2 : decList i = decList j := List.append_cancel_left hdata
  have h3 := congrArg ofDecChars h2
  rwa [ofDecChars_decList, ofDecChars_decList] at h3

theorem otherTrialsDict_some (paths : List String) :
    otherTrialsDict (some paths)
      = paths.enum.map (fun ip => (otherTrialKey ip.1, Json.str ip.2)) := by
  rw [otherTrialsDict]
  have hfold : paths.enum.foldl
      (fun acc ip => dictSet acc (otherTrialKey ip.1) (.str ip.2)) []
      = dictUpdate []
          (paths.enum.map (fun ip => (otherTrialKey ip.1, Json.str ip.2))) := by
    rw [dictUpdate, List.foldl_map]
  have hkeys : dictKeys
      (paths.enum.map (fun ip => (otherTrialKey ip.1, Json.str ip.2)))
      = (List.range paths.length).map otherTrialKey := by
    rw [dictKeys, List.map_map, ← List.enum_map_fst paths, List.map_map]
    rfl
  rw [hfold, dictUpdate_eq_append]
  · simp
  · rw [hkeys]
    exact (List.nodup_range _).map otherTrialKey_injective
  · intro k _
    simp

/-- The default-parameter dict read by `Rule.sagemaker` from
`base_config["DebugRuleConfiguration"].get("RuleParameters", \x7b\x7d)` (the
value on every path on which the factory succeeds). -/
def defaultRuleParams (base_config : JDict) : JDict :=
  match dictGet? base_config "DebugRuleConfiguration" with
  | some (.obj drc) =>
    (match dictGet? drc "RuleParameters" with
     | some (.obj d) => d
     | _ => [])
  | _ => []

theorem rule_sagemaker_ok_params {base_config : JDict}
    {name clop s3 : Option String} {other : Option (List String)}
    {rp : Option JDict} {ccs : Option (List CollectionConfig)} {r : Rule}
    (hok : Rule.sagemaker base_config name clop s3 other rp ccs = .ok r) :
    r.rule_parameters = dictUpdate (dictUpdate (otherTrialsDict other)
      (defaultRuleParams base_config)) (rp.getD []) := by
  rw [Rule.sagemaker] at hok
  by_cases hc : ruleToInvokeConflict rp = true
  · rw [hc] at hok
    simp [bind, Except.bind, pure, Except.pure, throw, throwThe,
      MonadExceptOf.throw, Functor.map, Except.map] at hok
  · rw [Bool.not_eq_true] at hc
    rw [hc] at hok
    cases hdrc : dictGet? base_config "DebugRuleConfiguration" with
    | none =>
      rw [hdrc] at hok
      simp [bind, Except.bind, pure, Except.pure, throw, throwThe,
        MonadExceptOf.throw, Functor.map, Except.map] at hok
    | some v =>
      rw [hdrc] at hok
      cases v with
      | obj drc =>
        simp only [Bool.false_eq_true, if_false, bind, Except.bind, pure,
          Except.pure, throw, throwThe, MonadExceptOf.throw, Functor.map,
          Except.map] at hok
        cases hrpd : dictGet? drc "RuleParameters" with
        | none =>
          rw [hrpd] at hok
          cases hcols : baseConfigCollections base_config with
          | error e =>
            rw [hcols] at hok
            simp [bind, Except.bind, pure, Except.pure, throw, throwThe,
              MonadExceptOf.throw, Functor.map, Except.map] at hok
          | ok cols =>
            rw [hcols] at hok
            simp [bind, Except.bind, pure, Except.pure, throw, throwThe,
              MonadExceptOf.throw, Functor.map, Except.map] at hok
            rw [← hok]
            simp [defaultRuleParams, hdrc, hrpd]
        | some w =>
          cases w with
          | obj dflt =>
            rw [hrpd] at hok
            cases hcols : baseConfigCollections base_config with
            | error e =>
              rw [hcols] at hok
              simp [bind, Except.bind, pure, Except.pure, throw, throwThe,
                MonadExceptOf.throw, Functor.map, Except.map] at hok
            | ok cols =>
              rw [hcols] at hok
              simp [bind, Except.bind, pure, Except.pure, throw, throwThe,
                MonadExceptOf.throw, Functor.map, Except.map] at hok
              rw [← hok]
              simp [defaultRuleParams, hdrc, hrpd]
          | str s =>
            rw [hrpd] at hok
            simp [bind, Except.bind, pure, Except.pure, throw, throwThe,
              MonadExceptOf.throw, Functor.map, Except.map] at hok
          | num n =>
            rw [hrpd] at hok
            simp [bind, Except.bind, pure, Except.pure, throw, throwThe,
              MonadExceptOf.throw, Functor.map, Except.map] at hok
          | bool b =>
            rw [hrpd] at hok
            simp [bind, Except.bind, pure, Except.pure, throw, throwThe,
              MonadExceptOf.throw, Functor.map, Except.map] at hok
          | null =>
            rw [hrpd] at hok
            simp [bind, Except.bind, pure, Except.pure, throw, throwThe,
              MonadExceptOf.throw, Functor.map, Except.map] at hok
          | arr l =>
            rw [hrpd] at hok
            simp [bind, Except.bind, pure, Except.pure, throw, throwThe,
              MonadExceptOf.throw, Functor.map, Except.map] at hok
      | str s =>
        simp [bind, Except.bind, pure, Except.pure, throw, throwThe,
          MonadExceptOf.throw, Functor.map, Except.map] at hok
      | num n =>
        simp [bind, Except.bind, pure, Except.pure, throw, throwThe,
          MonadExceptOf.throw, Functor.map, Except.map] at hok
      | bool b =>
        simp [bind, Except.bind, pure, Except.pure, throw, throwThe,
          MonadExceptOf.throw, Functor.map, Except.map] at hok
      | null =>
        simp [bind, Except.bind, pure, Except.pure, throw, throwThe,
          MonadExceptOf.throw, Functor.map, Except.map] at hok
      | arr l =>
        simp [bind, Except.bind, pure, Except.pure, throw, throwThe,
          MonadExceptOf.throw, Functor.map, Except.map] at hok

/-- C2: on every successful `Rule.sagemaker` call, the final
`rule_parameters` mapping resolves each key with caller-supplied
`rule_parameters` first, then the base config default parameters, then the
`other_trial_<i>` entries; and the other-trial entries are one per input
path, the i-th key `other_trial_<i>` mapping to the i-th path.  The two
`Nodup` hypotheses state that the caller parameters and the registry
defaults are genuine dicts (no duplicate keys). -/
theorem claim_C2_rule_sagemaker_merge (base_config : JDict)
    (name clop s3 : Option String) (other : Option (List String))
    (rp : Option JDict) (ccs : Option (List CollectionConfig)) (r : Rule)
    (hok : Rule.sagemaker base_config name clop s3 other rp ccs = .ok r)
    (hrp : (dictKeys (rp.getD [])).Nodup)
    (hdef : (dictKeys (defaultRuleParams base_config)).Nodup) :
    (∀ k, dictGet? r.rule_parameters k
        = jor (dictGet? (rp.getD []) k)
            (jor (dictGet? (defaultRuleParams base_config) k)
              (dictGet? (otherTrialsDict other) k)))
    ∧ otherTrialsDict other
        = (other.getD []).enum.map
            (fun ip => (otherTrialKey ip.1, Json.str ip.2)) := by
  constructor
  · intro k
    rw [rule_sagemaker_ok_params hok, dictGet?_dictUpdate _ _ hrp,
      dictGet?_dictUpdate _ _ hdef]
  · cases other with
    | none => simp [otherTrialsDict]
    | some paths => exact otherTrialsDict_some paths

/-- Base config used to exercise `Rule.sagemaker` on concrete data. -/
def sagemakerBaseConfigExample : JDict :=
  [("DebugRuleConfiguration",
    .obj [("RuleConfigurationName", .str "r"),
          ("RuleParameters", .obj [("p", .str "v")])])]

/-- The rule produced by `Rule.sagemaker` on the example inputs. -/
def sagemakerRuleExample : Rule :=
  { name := .str "r"
    image_uri := .str "DEFAULT_RULE_EVALUATOR_IMAGE"
    instance_type := .null
    container_local_output_path := .null
    s3_output_path := .null
    volume_size_in_gb := .null
    rule_parameters := [(otherTrialKey 0, .str "p0"), (otherTrialKey 1, .str "p1"),
      ("p", .str "v"), ("q", .str "w")]
    collection_configs := [] }

/-- Witness for C2 at concrete inputs with two other-trial paths, one
registry default and one caller parameter. -/
theorem claim_C2_witness :
    dictGet? sagemakerRuleExample.rule_parameters (otherTrialKey 1)
      = some (.str "p1")
    ∧ dictGet? sagemakerRuleExample.rule_parameters "q" = some (.str "w")
    ∧ otherTrialsDict (some ["p0", "p1"])
        = [(otherTrialKey 0, .str "p0"), (otherTrialKey 1, .str "p1")] := by
  have h := claim_C2_rule_sagemaker_merge sagemakerBaseConfigExample none none
    none (some ["p0", "p1"]) (some [("q", .str "w")]) none sagemakerRuleExample
    rfl (by decide) (by decide)
  refine ⟨?_, ?_, ?_⟩
  · rw [h.1 (otherTrialKey 1)]
    decide
  · rw [h.1 "q"]
    decide
  · rw [h.2]
    decide

@[simp] theorem jor_none_right (a : Option Json) : jor a none = a := by
  cases a <;> rfl

theorem dictKeys_build_dict_nodup (key : String) (v : Json) :
    (dictKeys (build_dict key v)).Nodup := by
  rw [build_dict]
  split <;> simp

theorem dictGet?_build_dict_optJson (key : String) (o : Option String)
    (k : String) :
    dictGet? (build_dict key (optJson o)) k
      = if k = key then o.map Json.str else none := by
  cases o with
  | none => by_cases h : k = key <;> simp [build_dict, optJson, h]
  | some s =>
    by_cases h : k = key
    · subst h
      simp [build_dict, optJson, dictGet?_cons]
    · have h' : ¬ key = k := fun hh => h hh.symm
      simp [build_dict, optJson, dictGet?_cons, h, h']

/-- C1 counterexample: with `source` the empty string and `rule_to_invoke`
given, both inputs are present (exactly one is not), yet the helper raises
the `InvalidArgument`-class error — Python tests presence by truthiness, so
an empty string counts as missing. -/
theorem claim_C1_counterexample :
    RuleBase._set_rule_parameters (some "") (some "x") none
        = .error .valueError
    ∧ (some "" : Option String).isSome = true
    ∧ (some "x" : Option String).isSome = true :=
  ⟨rfl, rfl, rfl⟩

/-- C1 amended: `RuleBase._set_rule_parameters` fails with the
`InvalidArgument`-class error if and only if exactly one of `source` and
`rule_to_invoke` is truthy (present and non-empty); on success the result
resolves each key against `rule_parameters` first, then a `rule_to_invoke`
entry (present when `rule_to_invoke` is given), then a `source_s3_uri`
entry (present when `source` is given).  The `Nodup` hypothesis states that
`rule_parameters` is a genuine dict. -/
theorem claim_C1_set_rule_parameters (source rule_to_invoke : Option String)
    (rule_parameters : Option JDict)
    (hrp : (dictKeys (rule_parameters.getD [])).Nodup) :
    (RuleBase._set_rule_parameters source rule_to_invoke rule_parameters
        = .error .valueError
      ↔ optTruthy source ≠ optTruthy rule_to_invoke)
    ∧ (∀ d, RuleBase._set_rule_parameters source rule_to_invoke rule_parameters
          = .ok d →
        ∀ k, dictGet? d k
          = jor (dictGet? (rule_parameters.getD []) k)
              (jor (if k = "rule_to_invoke" then rule_to_invoke.map Json.str
                    else none)
                (if k = "source_s3_uri" then source.map Json.str else none))) := by
  constructor
  · cases hs : optTruthy source <;> cases ht : optTruthy rule_to_invoke <;>
      simp [RuleBase._set_rule_parameters, hs, ht]
  · intro d hd k
    rw [RuleBase._set_rule_parameters] at hd
    by_cases h : (optTruthy source).xor (optTruthy rule_to_invoke) = true
    · rw [if_pos h] at hd
      exact Except.noConfusion hd
    · rw [if_neg h] at hd
      rw [Except.ok.injEq] at hd
      rw [← hd, dictGet?_dictUpdate _ _ hrp,
        dictGet?_dictUpdate _ _ (dictKeys_build_dict_nodup _ _),
        dictGet?_dictUpdate _ _ (dictKeys_build_dict_nodup _ _),
        dictGet?_build_dict_optJson, dictGet?_build_dict_optJson]
      simp

/-- Witness for C1: both inputs given and non-empty, one caller parameter;
the merge succeeds and the merged mapping holds all three entries. -/
theorem claim_C1_witness :
    (RuleBase._set_rule_parameters (some "s3://src") (some "invoke")
        (some [("k", Json.str "v")]) = .error .valueError
      ↔ optTruthy (some "s3://src") ≠ optTruthy (some "invoke"))
    ∧ dictGet? [("source_s3_uri", Json.str "s3://src"),
        ("rule_to_invoke", Json.str "invoke"), ("k", Json.str "v")]
        "source_s3_uri" = some (Json.str "s3://src") := by
  have h := claim_C1_set_rule_parameters (some "s3://src") (some "invoke")
    (some [("k", Json.str "v")]) (by decide)
  refine ⟨h.1, ?_⟩
  rw [h.2 [("source_s3_uri", Json.str "s3://src"),
    ("rule_to_invoke", Json.str "invoke"), ("k", Json.str "v")] rfl
    "source_s3_uri"]
  decide

theorem collectionsFromList_no_runtime (l : List Json) :
    collectionsFromList l ≠ .error .runtimeError := by
  induction l with
  | nil => simp [collectionsFromList]
  | cons cfg rest ih =>
    cases cfg with
    | obj items =>
      rw [collectionsFromList]
      cases hr : collectionsFromList rest with
      | error e =>
        simp only [bind, Except.bind, hr]
        intro hco
        rw [Except.error.injEq] at hco
        exact ih (by rw [hr, hco])
      | ok tail => simp [bind, Except.bind, hr, pure, Except.pure]
    | str s => simp [collectionsFromList]
    | num n => simp [collectionsFromList]
    | bool b => simp [collectionsFromList]
    | null => simp [collectionsFromList]
    | arr a => simp [collectionsFromList]

theorem baseConfigCollections_no_runtime (b : JDict) :
    baseConfigCollections b ≠ .error .runtimeError := by
  rw [baseConfigCollections]
  split
  · simp
  · exact collectionsFromList_no_runtime _
  · split <;> simp
  · split <;> simp
  · simp

theorem ruleToInvokeConflict_iff (rp : Option JDict) :
    ruleToInvokeConflict rp = true
      ↔ ∃ m v, rp = some m ∧ dictGet? m "rule_to_invoke" = some v
          ∧ v ≠ Json.null := by
  cases rp with
  | none => simp [ruleToInvokeConflict]
  | some m =>
    cases hv : dictGet? m "rule_to_invoke" with
    | none => simp [ruleToInvokeConflict, hv]
    | some v => simp [ruleToInvokeConflict, hv]

/-- C3 corrected: `Rule.sagemaker` fails with the
`ConfigurationConflict`-class error if and only if the caller-supplied
`rule_parameters` maps `rule_to_invoke` to a non-`None` value — the source
tests the value with `is not None`, not the presence of the key. -/
theorem claim_C3_rule_sagemaker_rule_to_invoke (base_config : JDict)
    (name clop s3 : Option String) (other : Option (List String))
    (rp : Option JDict) (ccs : Option (List CollectionConfig)) :
    Rule.sagemaker base_config name clop s3 other rp ccs
        = .error .runtimeError
      ↔ ∃ m v, rp = some m ∧ dictGet? m "rule_to_invoke" = some v
          ∧ v ≠ Json.null := by
  rw [← ruleToInvokeConflict_iff]
  constructor
  · intro h
    by_contra hcon
    rw [Bool.not_eq_true] at hcon
    rw [Rule.sagemaker, hcon] at h
    cases hdrc : dictGet? base_config "DebugRuleConfiguration" with
    | none =>
      rw [hdrc] at h
      simp [bind, Except.bind, pure, Except.pure, throw, throwThe,
        MonadExceptOf.throw, Functor.map, Except.map] at h
    | some v =>
      rw [hdrc] at h
      cases v with
      | obj drc =>
        simp only [Bool.false_eq_true, if_false, bind, Except.bind, pure,
          Except.pure, throw, throwThe, MonadExceptOf.throw, Functor.map,
          Except.map] at h
        cases hrpd : dictGet? drc "RuleParameters" with
        | none =>
          rw [hrpd] at h
          cases hcols : baseConfigCollections base_config with
          | error e =>
            rw [hcols] at h
            simp only [bind, Except.bind, pure, Except.pure, throw, throwThe,
              MonadExceptOf.throw, Functor.map, Except.map,
              Except.error.injEq] at h
            exact baseConfigCollections_no_runtime base_config
              (by rw [hcols, h])
          | ok cols =>
            rw [hcols] at h
            simp [bind, Except.bind, pure, Except.pure, throw, throwThe,
              MonadExceptOf.throw, Functor.map, Except.map] at h
        | some w =>
          cases w with
          | obj dflt =>
            rw [hrpd] at h
            cases hcols : baseConfigCollections base_config with
            | error e =>
              rw [hcols] at h
              simp only [bind, Except.bind, pure, Except.pure, throw,
                throwThe, MonadExceptOf.throw, Functor.map, Except.map,
                Except.error.injEq] at h
              exact baseConfigCollections_no_runtime base_config
                (by rw [hcols, h])
            | ok cols =>
              rw [hcols] at h
              simp [bind, Except.bind, pure, Except.pure, throw, throwThe,
                MonadExceptOf.throw, Functor.map, Except.map] at h
          | str s =>
            rw [hrpd] at h
            simp [bind, Except.bind, pure, Except.pure, throw, throwThe,
              MonadExceptOf.throw, Functor.map, Except.map] at h
          | num n =>
            rw [hrpd] at h
            simp [bind, Except.bind, pure, Except.pure, throw, throwThe,
              MonadExceptOf.throw, Functor.map, Except.map] at h
          | bool b =>
            rw [hrpd] at h
            simp [bind, Except.bind, pure, Except.pure, throw, throwThe,
              MonadExceptOf.throw, Functor.map, Except.map] at h
          | null =>
            rw [hrpd] at h
            simp [bind, Except.bind, pure, Except.pure, throw, throwThe,
              MonadExceptOf.throw, Functor.map, Except.map] at h
          | arr l =>
            rw [hrpd] at h
            simp [bind, Except.bind, pure, Except.pure, throw, throwThe,
              MonadExceptOf.throw, Functor.map, Except.map] at h
      | str s =>
        simp [bind, Except.bind, pure, Except.pure, throw, throwThe,
          MonadExceptOf.throw, Functor.map, Except.map] at h
      | num n =>
        simp [bind, Except.bind, pure, Except.pure, throw, throwThe,
          MonadExceptOf.throw, Functor.map, Except.map] at h
      | bool b =>
        simp [bind, Except.bind, pure, Except.pure, throw, throwThe,
          MonadExceptOf.throw, Functor.map, Except.map] at h
      | null =>
        simp [bind, Except.bind, pure, Except.pure, throw, throwThe,
          MonadExceptOf.throw, Functor.map, Except.map] at h
      | arr l =>
        simp [bind, Except.bind, pure, Except.pure, throw, throwThe,
          MonadExceptOf.throw, Functor.map, Except.map] at h
  · intro h
    rw [Rule.sagemaker, if_pos h]
    rfl

/-- C3 counterexample: caller parameters contain the `rule_to_invoke` key
(mapped to `None`), yet the call succeeds — the claim says it must fail. -/
theorem claim_C3_counterexample :
    Rule.sagemaker [("DebugRuleConfiguration", .obj [])] none none none none
        (some [("rule_to_invoke", Json.null)]) none
      = .ok { name := Json.null,
              image_uri := .str "DEFAULT_RULE_EVALUATOR_IMAGE",
              instance_type := Json.null,
              container_local_output_path := Json.null,
              s3_output_path := Json.null,
              volume_size_in_gb := Json.null,
              rule_parameters := [("rule_to_invoke", Json.null)],
              collection_configs := [] }
    ∧ dictGet? [("rule_to_invoke", Json.null)] "rule_to_invoke"
        = some Json.null :=
  ⟨rfl, rfl⟩

/-- C4: the profiling-rule serializer emits a `RuleParameters` entry whose
values are the `str(...)` renderings of the stored values (when the stored
mapping is non-empty), while the debugger-rule serializer emits the stored
mapping itself, values uncoerced. -/
theorem claim_C4_rule_parameters_serialization (p : ProfilerRule) (r : Rule)
    (hp : p.rule_parameters ≠ []) :
    dictGet? (p.to_profiler_rule_config_dict).fst "RuleParameters"
        = some (.obj (p.rule_parameters.map
            (fun q => (q.1, Json.str (pyStr q.2)))))
    ∧ dictGet? (r.to_debugger_rule_config_dict).fst "RuleParameters"
        = some (.obj r.rule_parameters) := by
  constructor
  · rw [ProfilerRule.to_profiler_rule_config_dict]
    have ht : pyTruthy (.obj p.rule_parameters) = true := by
      simp [pyTruthy, hp]
    rw [if_pos ht]
    simp
  · rw [Rule.to_debugger_rule_config_dict]
    have hbd : build_dict "RuleParameters" (.obj r.rule_parameters)
        = [("RuleParameters", .obj r.rule_parameters)] := by
      rw [build_dict, if_neg (by simp)]
    rw [hbd]
    simp [dictUpdate]

/-- Witness for C4: a profiler rule and a debugger rule both storing the
non-string parameter value `5`. -/
theorem claim_C4_witness :
    dictGet? ((⟨.null, .null, .null, .null, .null, .null,
          [("k", Json.num 5)]⟩ : ProfilerRule).to_profiler_rule_config_dict).fst
        "RuleParameters"
      = some (.obj ([("k", Json.num 5)].map
          (fun q => (q.1, Json.str (pyStr q.2)))))
    ∧ dictGet? ((⟨.null, .null, .null, .null, .null, .null,
          [("k", Json.num 5)], []⟩ : Rule).to_debugger_rule_config_dict).fst
        "RuleParameters"
      = some (.obj [("k", Json.num 5)]) :=
  claim_C4_rule_parameters_serialization
    ⟨.null, .null, .null, .null, .null, .null, [("k", Json.num 5)]⟩
    ⟨.null, .null, .null, .null, .null, .null, [("k", Json.num 5)], []⟩
    (by decide)

/-- C5 counterexample: on a `DebuggerHookConfig` with every attribute
absent, the request dict still carries an `S3OutputPath` key (with value
`None`) — the claim says an absent attribute produces no key at all. -/
theorem claim_C5_counterexample :
    (DebuggerHookConfig._to_request_dict ⟨.null, .null, .null, none⟩).fst
      = [("S3OutputPath", Json.null)]
    ∧ (⟨.null, .null, .null, none⟩ : DebuggerHookConfig).s3_output_path
      = Json.null :=
  ⟨rfl, rfl⟩

/-- C5 amended: in both request dicts every key except `S3OutputPath` is
present exactly when the corresponding attribute is non-absent (and carries
the attribute's value), no other keys occur, but the `S3OutputPath` key is
always present, carrying `None` when the attribute is absent. -/
theorem claim_C5_request_dict_fields (hc : DebuggerHookConfig)
    (t : TensorBoardOutputConfig) :
    (dictGet? (hc._to_request_dict).fst "S3OutputPath"
        = some hc.s3_output_path
     ∧ dictGet? (hc._to_request_dict).fst "LocalPath"
        = (if hc.container_local_output_path ≠ .null
           then some hc.container_local_output_path else none)
     ∧ dictGet? (hc._to_request_dict).fst "HookParameters"
        = (if hc.hook_parameters ≠ .null then some hc.hook_parameters
           else none)
     ∧ dictGet? (hc._to_request_dict).fst "CollectionConfigurations"
        = hc.collection_configs.map
            (fun l => .arr (l.map (fun c => .obj (c._to_request_dict).fst)))
     ∧ dictKeys (hc._to_request_dict).fst
        ⊆ ["S3OutputPath", "LocalPath", "HookParameters",
           "CollectionConfigurations"])
    ∧ (dictGet? (t._to_request_dict).fst "S3OutputPath"
        = some t.s3_output_path
     ∧ dictGet? (t._to_request_dict).fst "LocalPath"
        = (if t.container_local_output_path ≠ .null
           then some t.container_local_output_path else none)
     ∧ dictKeys (t._to_request_dict).fst ⊆ ["S3OutputPath", "LocalPath"]) := by
  constructor
  · rw [DebuggerHookConfig._to_request_dict]
    by_cases h1 : hc.container_local_output_path = .null <;>
      by_cases h2 : hc.hook_parameters = .null <;>
        cases h3 : hc.collection_configs <;>
          refine ⟨?_, ?_, ?_, ?_, ?_⟩ <;>
            simp [h1, h2, h3, dictSet, dictGet?_cons, dictKeys]
  · rw [TensorBoardOutputConfig._to_request_dict]
    by_cases h1 : t.container_local_output_path = .null <;>
      refine ⟨?_, ?_, ?_⟩ <;>
        simp [h1, dictSet, dictGet?_cons, dictKeys]

/-- The profiler rule used to exhibit the receiver mutation of
`to_profiler_rule_config_dict`. -/
def profilerRuleExample : ProfilerRule :=
  ⟨.null, .null, .null, .null, .null, .null, [("k", Json.num 5)]⟩

/-- C6 counterexample: serializing a `ProfilerRule` whose parameters hold
the integer `5` changes the receiver — afterwards `rule_parameters` holds
the string `"5"`. -/
theorem claim_C6_counterexample :
    (profilerRuleExample.to_profiler_rule_config_dict).snd
      ≠ profilerRuleExample := by
  decide

/-- C6 amended: every serializer except
`ProfilerRule.to_profiler_rule_config_dict` leaves its receiver unchanged;
the profiler serializer stringifies the values of the receiver's
`rule_parameters` in place whenever that mapping is non-empty. -/
theorem claim_C6_serializers_receiver (r : Rule) (hc : DebuggerHookConfig)
    (t : TensorBoardOutputConfig) (c : CollectionConfig) (p : ProfilerRule) :
    (r.to_debugger_rule_config_dict).snd = r
    ∧ (hc._to_request_dict).snd = hc
    ∧ (t._to_request_dict).snd = t
    ∧ (c._to_request_dict).snd = c
    ∧ (p.to_profiler_rule_config_dict).snd
        = (if p.rule_parameters.isEmpty then p
           else { p with rule_parameters :=
             p.rule_parameters.map (fun q => (q.1, Json.str (pyStr q.2))) }) := by
  refine ⟨rfl, rfl, rfl, rfl, ?_⟩
  rw [ProfilerRule.to_profiler_rule_config_dict]
  rcases p with ⟨n, iu, it, cl, s3, vs, rp⟩
  cases rp with
  | nil => simp [pyTruthy]
  | cons q rest => simp [pyTruthy]

/-- C9: whenever `JumpStartModelSpecs.from_json` succeeds with
`training_supported` false, the four training attributes are all the
explicit absent value, regardless of what the input mapping contained for
those keys. -/
theorem claim_C9_training_fields_absent (j : Json) (s : JumpStartModelSpecs)
    (hok : JumpStartModelSpecs.from_json j = .ok s)
    (hts : s.training_supported = false) :
    s.training_ecr_specs = none ∧ s.training_artifact_key = .null
    ∧ s.training_script_key = .null ∧ s.hyperparameters = .null := by
  cases j with
  | obj d =>
    rw [JumpStartModelSpecs.from_json] at hok
    simp only [bind, Except.bind, pure, Except.pure] at hok
    repeat' split at hok
    all_goals first
      | exact Except.noConfusion hok
      | (rw [Except.ok.injEq] at hok
         rw [← hok]
         exact ⟨rfl, rfl, rfl, rfl⟩)
      | (rw [Except.ok.injEq] at hok
         rw [← hok] at hts
         simp at hts)
  | str v => simp [JumpStartModelSpecs.from_json] at hok
  | num v => simp [JumpStartModelSpecs.from_json] at hok
  | bool v => simp [JumpStartModelSpecs.from_json] at hok
  | null => simp [JumpStartModelSpecs.from_json] at hok
  | arr v => simp [JumpStartModelSpecs.from_json] at hok

/-- A raw specs mapping with `training_supported` false; it nevertheless
carries a `training_artifact_key` entry, which must be ignored. -/
def specsJsonExample : Json := .obj
  [("model_id", .str "m"), ("version", .str "1"),
   ("min_sdk_version", .str "2"),
   ("incremental_training_supported", .bool false),
   ("hosting_ecr_specs", .obj [("framework", .str "pt"),
     ("framework_version", .str "1.9"), ("py_version", .str "py3")]),
   ("hosting_artifact_key", .str "a"), ("hosting_script_key", .str "s"),
   ("training_supported", .bool false),
   ("training_artifact_key", .str "ignored")]

/-- The specs object built from `specsJsonExample`. -/
def specsNoTrainingExample : JumpStartModelSpecs :=
  ⟨.str "m", .str "1", .str "2", false,
   ⟨.str "pt", .str "1.9", .str "py3"⟩, .str "a", .str "s",
   false, none, .null, .null, .null⟩

/-- Witness for C9 at a concrete mapping that even supplies a (discarded)
`training_artifact_key`. -/
theorem claim_C9_witness :
    specsNoTrainingExample.training_ecr_specs = none
    ∧ specsNoTrainingExample.training_artifact_key = .null
    ∧ specsNoTrainingExample.training_script_key = .null
    ∧ specsNoTrainingExample.hyperparameters = .null :=
  claim_C9_training_fields_absent specsJsonExample specsNoTrainingExample
    rfl rfl

/-- C10: `from_json` inverts `to_json` for the three holder types providing
both methods.  For `JumpStartModelSpecs`, `to_json` serializes the nested
`JumpStartECRSpecs` attributes into mappings (shown by the
`hosting_ecr_specs` entry), and the round trip holds for every instance
satisfying the constructor invariants (training attributes absent when
training is unsupported, a training ECR spec present when supported). -/
theorem claim_C10_round_trip :
    (∀ h : JumpStartModelHeader,
        JumpStartModelHeader.from_json (.obj h.to_json) = .ok h)
    ∧ (∀ e : JumpStartECRSpecs,
        JumpStartECRSpecs.from_json (.obj e.to_json) = .ok e)
    ∧ (∀ s : JumpStartModelSpecs,
        dictGet? s.to_json "hosting_ecr_specs"
          = some (.obj s.hosting_ecr_specs.to_json)
        ∧ ((s.training_supported = false → s.training_ecr_specs = none
              ∧ s.training_artifact_key = .null
              ∧ s.training_script_key = .null ∧ s.hyperparameters = .null) →
           (s.training_supported = true → s.training_ecr_specs.isSome) →
           JumpStartModelSpecs.from_json (.obj s.to_json) = .ok s)) := by
  refine ⟨?_, ?_, ?_⟩
  · intro h
    rcases h with ⟨m, v, mv, sk⟩
    rfl
  · intro e
    rcases e with ⟨f, fv, pv⟩
    rfl
  · intro s
    constructor
    · rfl
    · intro hv1 hv2
      rcases s with ⟨m, v, mv, it, he, ha, hs, ts, te, ta, tk, hy⟩
      cases ts
      · obtain ⟨h1, h2, h3, h4⟩ := hv1 rfl
        dsimp only at h1 h2 h3 h4
        subst h1
        subst h2
        subst h3
        subst h4
        rfl
      · have hsome := hv2 rfl
        rcases te with _ | e
        · simp at hsome
        · rfl

/-- Witness for C10 at a concrete specs object (training unsupported) and a
concrete header. -/
theorem claim_C10_witness :
    JumpStartModelSpecs.from_json (.obj specsNoTrainingExample.to_json)
      = .ok specsNoTrainingExample
    ∧ JumpStartModelHeader.from_json (.obj (⟨.str "m", .str "1", .str "2",
        .str "k"⟩ : JumpStartModelHeader).to_json)
      = .ok ⟨.str "m", .str "1", .str "2", .str "k"⟩ :=
  ⟨(claim_C10_round_trip.2.2 specsNoTrainingExample).2
      (fun _ => ⟨rfl, rfl, rfl, rfl⟩) (fun hx => nomatch hx),
   claim_C10_round_trip.1 ⟨.str "m", .str "1", .str "2", .str "k"⟩⟩

end SagemakerSpec
